import Mathlib

/-!
Verification of the command-line processing pipeline of `shell-rs`
(`src/main.rs`): redirection parsing, builtin dispatch, and external
command execution, shallowly embedded as pure Lean functions.

Modelling conventions:
* Tokens are `String`s (the tokenizer itself, the external `shlex` crate,
  is out of scope; all functions start from a token list).
* The ambient file system and process environment are explicit records of
  boolean probes (`FileSys`, `Env`), mirroring the calls the source makes
  (`Path::exists`, `Path::is_file`, `OpenOptions::open`,
  `env::set_current_dir`, spawning).
* A Rust `panic!`/`unwrap` failure is the distinguished outcome `aborted`.
* Writes performed by a command are collected as a list of
  `(channel, text)` pairs instead of being performed on real handles.
-/

namespace ShellRs

/-- A sink of the Output Channel Pair: either the process console or an
opened file handle on the given path (`Box<dyn Write>` holding `Stdout`/
`Stderr` or `File` in the source, `main.rs` lines 20-21 and 211-215). -/
inductive Sink where
  | console : Sink
  | file : String → Sink
deriving DecidableEq, Repr

/-- The Output Channel Pair: `stdout_buffer` and `stderr_buffer` of
`main.rs` (lines 20-21). -/
structure Channels where
  stdout_sink : Sink
  stderr_sink : Sink
deriving DecidableEq, Repr

/-- Which of the two buffers a write goes through (`write_to_buffer` /
`writeln_to_buffer` target, before redirection resolves it to a sink). -/
inductive Chan where
  | out : Chan
  | err : Chan
deriving DecidableEq, Repr

/-- `const BUILTINS: [&str; 4]` (`main.rs` line 12). Note the array has
four entries; `"cd"` is absent even though `main` dispatches `cd` as a
builtin (line 50). -/
def BUILTINS : List String := ["echo", "type", "pwd", "exit"]

/-- `const REDIR_WRITE_PATTERNS` (`main.rs` line 13). -/
def REDIR_WRITE_PATTERNS : List String := [">", "1>", "2>"]

/-- `const REDIR_APPEND_PATTERNS` (`main.rs` line 14). -/
def REDIR_APPEND_PATTERNS : List String := [">>", "1>>", "2>>"]

/-- `REDIR_WRITE_PATTERNS.contains(&tok)` (`main.rs` line 161). -/
def isRedirWrite (t : String) : Bool := REDIR_WRITE_PATTERNS.contains t

/-- `REDIR_APPEND_PATTERNS.contains(&tok)` (`main.rs` line 166). -/
def isRedirAppend (t : String) : Bool := REDIR_APPEND_PATTERNS.contains t

/-- A token is a redirection operator iff it is a write form or an append
form. -/
def isRedirOp (t : String) : Bool := isRedirWrite t || isRedirAppend t

/-- Characters strictly before the last `/` of the list, or `none` when
no `/` occurs (helper for `pathParent`). -/
def beforeLastSlash : List Char → Option (List Char)
  | [] => none
  | c :: rest =>
    match beforeLastSlash rest with
    | some tail => some (c :: tail)
    | none => if c = '/' then some [] else none

/-- Models Rust `Path::parent` on the path strings this program builds
(no trailing separators): `none` for the empty path and for the root
`"/"` (Rust returns `None` there, so `.unwrap()` panics); otherwise the
path with its final `/`-separated component removed, which is `""` for a
bare one-component relative path and `"/"` for a top-level absolute
path. -/
def pathParent (p : String) : Option String :=
  if p = "" ∨ p = "/" then none
  else
    match beforeLastSlash p.toList with
    | none => some ""
    | some [] => some "/"
    | some front => some (String.mk front)

/-- The ambient file-system state, as the boolean probes the source
performs. `openOk isAppend path` is whether the `OpenOptions` call on
`main.rs` lines 195-205 (append mode when `isAppend`) succeeds. -/
structure FileSys where
  entryExists : String → Bool
  isFile : String → Bool
  openOk : Bool → String → Bool

/-- Models `Path::exists()` (`main.rs` line 189): the empty path never
exists (`stat("")` fails with `ENOENT` regardless of file-system state);
any other path is looked up in the file-system state. -/
def FileSys.pathExists (fs : FileSys) (p : String) : Bool :=
  p ≠ "" && fs.entryExists p

/-- Models Rust `str::contains` with a single-character pattern
(`cmds[curr_idx].contains("2")`, `main.rs` line 211): whether the
character occurs in the string. -/
def containsChar (s : String) (c : Char) : Bool := s.toList.contains c

/-- Result of `parse_redirection`/`apply_redirection`. `ok` carries the
rewritten token list and channels; `err` carries the error message
together with the token list and channels as they stand at the error
return (in the source both are `&mut` and no mutation precedes an error
return); `aborted` is a Rust panic (`parent().unwrap()` on a path with no
parent). -/
inductive RedirOutcome where
  | ok : List String → Channels → RedirOutcome
  | err : String → List String → Channels → RedirOutcome
  | aborted : RedirOutcome
deriving DecidableEq, Repr

/-- `cmds.drain(curr_idx..=curr_idx + 1)` (`main.rs` line 217): removes
the operator token and its target token. -/
def removeOpAndTarget (i : Nat) (cmds : List String) : List String :=
  cmds.take i ++ cmds.drop (i + 2)

/-- `apply_redirection` (`main.rs` lines 174-219): checks the target
exists at `curr_idx + 1`, takes `Path::parent().unwrap()` of the target
(panic when the target has no parent), checks that parent exists, opens
the target (append or write+create mode per `is_append`), replaces
`stderr_buffer` when the operator token contains the character `2` (Rust
`contains("2")`, line 211) else `stdout_buffer`, and drains the operator
and target tokens. -/
def apply_redirection (fs : FileSys) (isAppend : Bool) (currIdx : Nat)
    (cmds : List String) (chans : Channels) : RedirOutcome :=
  if currIdx + 1 ≥ cmds.length then
    .err "Redirection target missing" cmds chans
  else
    let redirTarget := cmds.getD (currIdx + 1) ""
    match pathParent redirTarget with
    | none => .aborted
    | some parentDir =>
      if !(fs.pathExists parentDir) then
        .err "Redirection target doesn't exist" cmds chans
      else if !(fs.openOk isAppend redirTarget) then
        .err "Failed to open redirection target for writing" cmds chans
      else
        let newChans :=
          if containsChar (cmds.getD currIdx "") '2' then
            { chans with stderr_sink := Sink.file redirTarget }
          else
            { chans with stdout_sink := Sink.file redirTarget }
        .ok (removeOpAndTarget currIdx cmds) newChans

/-- The scan of the `for i in 0..cmds.len()` loop of `parse_redirection`
(`main.rs` lines 160-170): position of the first token matching a write
pattern (checked first) or an append pattern, together with whether the
match was an append form. -/
def findFirstOp : List String → Option (Nat × Bool)
  | [] => none
  | t :: rest =>
    if isRedirWrite t then some (0, false)
    else if isRedirAppend t then some (0, true)
    else (findFirstOp rest).map (fun p => (p.1 + 1, p.2))

/-- `parse_redirection` (`main.rs` lines 155-172): apply the redirection
at the first operator found (the loop breaks after it, or propagates its
error); if no operator is found, return the tokens and channels
unchanged. -/
def parse_redirection (fs : FileSys) (cmds : List String)
    (chans : Channels) : RedirOutcome :=
  match findFirstOp cmds with
  | none => .ok cmds chans
  | some (i, isApp) => apply_redirection fs isApp i cmds chans

/-- Contents of the redirection target's backing file right after the
non-append open `OpenOptions::new().create(true).write(true).open(..)`
(`main.rs` lines 201-204): the file is created empty when missing, but an
existing file is NOT truncated (no `.truncate(true)`), so its prior
contents remain. -/
def open_write_contents (prior : Option String) : String :=
  prior.getD ""

/-- Contents of the file after the opened write-form handle has written
`out` starting at position 0 (the cursor of a non-append open): the
written bytes overwrite a prefix, and any prior contents beyond
`out.length` survive. -/
def contentsAfterWriteForm (prior : Option String) (out : String) : String :=
  out ++ (open_write_contents prior).drop out.length

/-- Contents after the append-form open (`.create(true).append(true)`,
`main.rs` lines 196-199) and writing `out`: appended after the prior
contents. -/
def contentsAfterAppendForm (prior : Option String) (out : String) : String :=
  prior.getD "" ++ out

/-- The ambient process environment and outside world: the `PATH`
directories (`env::split_paths`, read once at startup), the file system,
the behaviour of spawned child processes (`exec name args` is the child's
already-lossily-decoded stdout and stderr text; `spawnOk` is whether
`Command::output()` succeeds at all — its failure is an `.expect` panic),
the current working directory, the `HOME` variable, and which paths
`env::set_current_dir` accepts. -/
structure Env where
  pathDirs : List String
  fs : FileSys
  exec : String → List String → String × String
  spawnOk : String → List String → Bool
  cwd : String
  home : Option String
  canSetDir : String → Bool

/-- Rust `PathBuf::join(dir, name)` for the non-absolute `name`s this
program joins (command names): `dir` plus a separator plus `name`. -/
def pathJoin (dir name : String) : String := dir ++ "/" ++ name

/-- `find_external_cmd` (`main.rs` lines 124-131): the first `PATH`
directory whose join with the command name is an existing regular file;
returns that join. -/
def find_external_cmd (env : Env) (cmd : String) : Option String :=
  match env.pathDirs.find? (fun d => env.fs.isFile (pathJoin d cmd)) with
  | some d => some (pathJoin d cmd)
  | none => none

/-- `cmd_not_found` (`main.rs` lines 232-234). -/
def cmd_not_found (cmd : String) : List (Chan × String) :=
  [(Chan.out, cmd ++ ": command not found\n")]

/-- Outcome of `try_external_cmd` (`main.rs` lines 133-153): either a
spawn happened (recording the program string passed to `Command::new` and
the argument tokens, plus the writes of the child's decoded output), or
the command was not found, or a panic (`cmds.first().unwrap()` on an
empty command line, or `.expect` on a failed spawn). -/
inductive ExtOutcome where
  | ran : String → List String → List (Chan × String) → ExtOutcome
  | notFound : List (Chan × String) → ExtOutcome
  | aborted : ExtOutcome
deriving DecidableEq, Repr

/-- `try_external_cmd` (`main.rs` lines 133-153). Note the spawn is
`Command::new(cmd)` with the bare command NAME (line 142), not the path
returned by `find_external_cmd`; the child's stdout text goes to the
stdout buffer and its stderr text to the stderr buffer (lines 148-149). -/
def try_external_cmd (env : Env) (cmds : List String) : ExtOutcome :=
  match cmds with
  | [] => .aborted
  | cmd :: rest =>
    match find_external_cmd env cmd with
    | some _ =>
      if env.spawnOk cmd rest then
        let out := env.exec cmd rest
        .ran cmd rest [(Chan.out, out.1), (Chan.err, out.2)]
      else .aborted
    | none => .notFound (cmd_not_found cmd)

/-- `echo_cmd` (`main.rs` lines 56-58): space-joined arguments plus a
newline, to the stdout buffer. -/
def echo_cmd (echoStrs : List String) : List (Chan × String) :=
  [(Chan.out, String.intercalate " " echoStrs ++ "\n")]

/-- `pwd_cmd` (`main.rs` lines 60-68): rejects extra arguments, else
writes the current directory. (It receives the whole command line, so
"more than one token" means an argument was given.) -/
def pwd_cmd (env : Env) (cmds : List String) : List (Chan × String) :=
  if cmds.length > 1 then [(Chan.out, "too many arguments\n")]
  else [(Chan.out, env.cwd ++ "\n")]

/-- `type_cmd` (`main.rs` lines 99-122): requires exactly one argument;
reports a builtin when the name is in `BUILTINS`, else an external path
when found, else not found. All outcomes go to the stdout buffer. -/
def type_cmd (env : Env) (typeStrs : List String) : List (Chan × String) :=
  if typeStrs.length ≠ 1 then
    [(Chan.out, "incorrect number of args for type command, expected 1, got "
        ++ toString typeStrs.length ++ "\n")]
  else
    let cmd := typeStrs.getD 0 ""
    if BUILTINS.contains cmd then
      [(Chan.out, cmd ++ " is a shell builtin\n")]
    else
      match find_external_cmd env cmd with
      | some p => [(Chan.out, cmd ++ " is " ++ p ++ "\n")]
      | none => [(Chan.out, cmd ++ ": not found\n")]

/-- Result of dispatching one command line (`match cmds[..]` in `main`,
lines 44-52): writes plus the working directory afterwards, a process
termination with an exit code, or a panic. -/
inductive StepResult where
  | wrote : List (Chan × String) → String → StepResult
  | exited : Int → StepResult
  | aborted : StepResult
deriving DecidableEq, Repr

/-- `code.parse::<i32>()` (`main.rs` line 46): an optional sign followed
by digits, within the `i32` range. `String.toInt?` models the sign and
digit parsing; the range check is explicit. -/
def parse_i32 (s : String) : Option Int :=
  match s.toInt? with
  | some n => if -(2 ^ 31) ≤ n ∧ n < 2 ^ 31 then some n else none
  | none => none

/-- `cd_cmd` (`main.rs` lines 70-97): rejects more than one argument;
with no argument or a `~`-prefixed one goes to `HOME` (panics when `HOME`
is unset or the change fails, both `.unwrap()`); a `.`-prefixed argument
is string-joined onto the current directory; otherwise the argument is
used as given; a failed directory change reports
"cd: <path>: No such file or directory". -/
def cd_cmd (env : Env) (cmds : List String) : StepResult :=
  if cmds.length > 1 then
    .wrote [(Chan.out, "too many arguments\n")] env.cwd
  else if cmds.length = 0 || (cmds.getD 0 "").startsWith "~" then
    match env.home with
    | none => .aborted
    | some h => if env.canSetDir h then .wrote [] h else .aborted
  else
    let arg := cmds.getD 0 ""
    let path := if arg.startsWith "." then env.cwd ++ "/" ++ arg else arg
    if env.canSetDir path then .wrote [] path
    else .wrote [(Chan.out, "cd: " ++ path ++ ": No such file or directory\n")] env.cwd

/-- The `match cmds[..]` dispatch of `main` (`main.rs` lines 44-52), in
the source's arm order: `["exit"]` exits 0; `["exit", code]` exits with
the parsed code (panicking on a parse failure, `.unwrap()`); `pwd`,
`type`, `echo`, `cd` go to their builtins; anything else (including
`exit` with two or more arguments) goes to `try_external_cmd`. -/
def dispatch (env : Env) (cmds : List String) : StepResult :=
  match cmds with
  | ["exit"] => .exited 0
  | ["exit", code] =>
    match parse_i32 code with
    | some n => .exited n
    | none => .aborted
  | "pwd" :: _ => .wrote (pwd_cmd env cmds) env.cwd
  | "type" :: rest => .wrote (type_cmd env rest) env.cwd
  | "echo" :: rest => .wrote (echo_cmd rest) env.cwd
  | "cd" :: rest => cd_cmd env rest
  | _ =>
    match try_external_cmd env cmds with
    | .ran _ _ ws => .wrote ws env.cwd
    | .notFound ws => .wrote ws env.cwd
    | .aborted => .aborted

/-- A write with its buffer resolved to the sink the channels map that
buffer to. -/
def resolveWrites (chans : Channels) (ws : List (Chan × String)) :
    List (Sink × String) :=
  ws.map (fun w =>
    (match w.1 with
     | Chan.out => chans.stdout_sink
     | Chan.err => chans.stderr_sink, w.2))

/-- Result of processing one tokenized line in the `main` loop: the
interpreter continues to the next line after the given sink-resolved
writes (with the given working directory), or the process exits, or a
panic aborts the interpreter. -/
inductive LineResult where
  | continues : List (Sink × String) → String → LineResult
  | exited : Int → LineResult
  | aborted : LineResult
deriving DecidableEq, Repr

/-- One iteration of the `main` loop after tokenization (`main.rs` lines
39-52): fresh console channels, `parse_redirection`, then on error a
`println!` report straight to the console and `continue`; on success the
dispatch, whose writes are resolved through the (possibly redirected)
channels. -/
def processLine (env : Env) (tokens : List String) : LineResult :=
  match parse_redirection env.fs tokens ⟨Sink.console, Sink.console⟩ with
  | .err msg _ _ =>
    .continues [(Sink.console, "Failed to parse redirection: " ++ msg ++ "\n")] env.cwd
  | .aborted => .aborted
  | .ok cmds chans =>
    match dispatch env cmds with
    | .wrote ws newCwd => .continues (resolveWrites chans ws) newCwd
    | .exited n => .exited n
    | .aborted => .aborted

/-- A concrete file system for witnesses and counterexamples: only the
directories `/tmp` and `/bin` exist, `/bin/ls` is the only regular file,
every open succeeds. -/
def fsDemo : FileSys :=
  { entryExists := fun p => p = "/tmp" || p = "/bin"
    isFile := fun p => p = "/bin/ls"
    openOk := fun _ _ => true }

/-- Console channels, as each `main` loop iteration creates fresh. -/
def chansDemo : Channels := ⟨Sink.console, Sink.console⟩

/-- A concrete environment for witnesses and counterexamples. The `exec`
function answers differently when spawned via the bare name `ls` and via
the resolved path `/bin/ls`, making the two observably distinct. -/
def envDemo : Env :=
  { pathDirs := ["/bin"]
    fs := fsDemo
    exec := fun p _ => (if p = "/bin/ls" then "RESOLVED\n" else "VIANAME\n", "")
    spawnOk := fun _ _ => true
    cwd := "/root"
    home := some "/root"
    canSetDir := fun _ => true }

/-! ## Helper lemmas -/

/-- A token matching a write pattern is one of the three write forms. -/
theorem write_pattern_cases {t : String} (h : isRedirWrite t = true) :
    t = ">" ∨ t = "1>" ∨ t = "2>" := by
  simpa [isRedirWrite, REDIR_WRITE_PATTERNS] using h

/-- A token matching an append pattern is one of the three append forms. -/
theorem append_pattern_cases {t : String} (h : isRedirAppend t = true) :
    t = ">>" ∨ t = "1>>" ∨ t = "2>>" := by
  simpa [isRedirAppend, REDIR_APPEND_PATTERNS] using h

/-- The write and append pattern lists are disjoint. -/
theorem write_not_append {t : String} (h : isRedirWrite t = true) :
    isRedirAppend t = false := by
  rcases write_pattern_cases h with rfl | rfl | rfl <;> decide

/-- No operator is found exactly when no token is an operator. -/
theorem findFirstOp_none_iff (l : List String) :
    findFirstOp l = none ↔ ∀ t ∈ l, isRedirOp t = false := by
  induction l with
  | nil => simp [findFirstOp]
  | cons t rest ih =>
    unfold findFirstOp
    by_cases hw : isRedirWrite t = true
    · simp [hw, isRedirOp]
    · rw [Bool.not_eq_true] at hw
      by_cases ha : isRedirAppend t = true
      · simp [hw, ha, isRedirOp]
      · rw [Bool.not_eq_true] at ha
        simp [hw, ha, isRedirOp, Option.map_eq_none', ih]

/-- A found operator is in range and is an operator token. -/
theorem findFirstOp_spec (l : List String) (i : Nat) (b : Bool)
    (h : findFirstOp l = some (i, b)) :
    i < l.length ∧ isRedirOp (l.getD i "") = true := by
  induction l generalizing i b with
  | nil => simp [findFirstOp] at h
  | cons t rest ih =>
    unfold findFirstOp at h
    by_cases hw : isRedirWrite t = true
    · simp only [hw, if_true] at h
      obtain ⟨rfl, rfl⟩ : 0 = i ∧ false = b := by
        have := Option.some.inj h
        exact ⟨congrArg Prod.fst this, congrArg Prod.snd this⟩
      simp [isRedirOp, hw]
    · rw [Bool.not_eq_true] at hw
      by_cases ha : isRedirAppend t = true
      · simp only [hw, Bool.false_eq_true, if_false, ha, if_true] at h
        obtain ⟨rfl, rfl⟩ : 0 = i ∧ true = b := by
          have := Option.some.inj h
          exact ⟨congrArg Prod.fst this, congrArg Prod.snd this⟩
        simp [isRedirOp, ha]
      · rw [Bool.not_eq_true] at ha
        simp only [hw, ha, Bool.false_eq_true, if_false] at h
        cases hr : findFirstOp rest with
        | none => rw [hr] at h; simp at h
        | some q =>
          obtain ⟨j, c⟩ := q
          rw [hr] at h
          simp only [Option.map_some'] at h
          have hj := Option.some.inj h
          obtain ⟨hji, hcb⟩ : j + 1 = i ∧ c = b :=
            ⟨congrArg Prod.fst hj, congrArg Prod.snd hj⟩
          subst hji; subst hcb
          have := ih j c hr
          refine ⟨by simpa using Nat.succ_lt_succ this.1, ?_⟩
          rw [List.getD_cons_succ]
          exact this.2

/-- If position `i` holds an operator token and no earlier position does,
the scan finds exactly position `i`, reporting whether that token is an
append form. -/
theorem findFirstOp_of_first (l : List String) (i : Nat)
    (hop : isRedirOp (l.getD i "") = true)
    (hfirst : ∀ k, k < i → isRedirOp (l.getD k "") = false) :
    findFirstOp l = some (i, isRedirAppend (l.getD i "")) := by
  induction l generalizing i with
  | nil =>
    rw [List.getD_nil] at hop
    exact absurd hop (by decide)
  | cons t rest ih =>
    cases i with
    | zero =>
      rw [List.getD_cons_zero] at hop ⊢
      by_cases hw : isRedirWrite t = true
      · simp [findFirstOp, hw, write_not_append hw]
      · rw [Bool.not_eq_true] at hw
        have ha : isRedirAppend t = true := by
          simp [isRedirOp, hw] at hop
          exact hop
        simp [findFirstOp, hw, ha]
    | succ j =>
      have h0 : isRedirOp t = false := by
        have := hfirst 0 (Nat.succ_pos j)
        rwa [List.getD_cons_zero] at this
      obtain ⟨hw, ha⟩ : isRedirWrite t = false ∧ isRedirAppend t = false := by
        simpa [isRedirOp] using h0
      rw [List.getD_cons_succ] at hop ⊢
      have hrest := ih j hop (fun k hk => by
        have := hfirst (k + 1) (Nat.succ_lt_succ hk)
        rwa [List.getD_cons_succ] at this)
      simp [findFirstOp, hw, ha, hrest]

/-- Dropping from an in-range position exposes the element there. -/
theorem drop_eq_getD_cons : ∀ (l : List String) (i : Nat), i < l.length →
    l.drop i = l.getD i "" :: l.drop (i + 1)
  | _ :: _, 0, _ => rfl
  | a :: l, i + 1, h => by
    simp only [List.drop_succ_cons, List.getD_cons_succ]
    exact drop_eq_getD_cons l i (by simpa using h)
  | [], i, h => by simp at h

/-- Shape of a successful `parse_redirection` run: either no operator was
present and the tokens came back unchanged, or the first operator sat at
an in-range position `i` with a target after it, and tokens `i` and
`i + 1` were removed. -/
theorem parse_ok_shape (fs : FileSys) (cmds cmds' : List String)
    (chans chans' : Channels)
    (h : parse_redirection fs cmds chans = .ok cmds' chans') :
    (cmds' = cmds ∧ findFirstOp cmds = none) ∨
    (∃ i, isRedirOp (cmds.getD i "") = true ∧ i + 1 < cmds.length ∧
      cmds' = cmds.take i ++ cmds.drop (i + 2)) := by
  unfold parse_redirection at h
  cases hf : findFirstOp cmds with
  | none =>
    simp only [hf] at h
    obtain ⟨h1, -⟩ : cmds = cmds' ∧ chans = chans' := by
      simpa [RedirOutcome.ok.injEq] using h
    exact Or.inl ⟨h1.symm, rfl⟩
  | some p =>
    obtain ⟨i, b⟩ := p
    simp only [hf] at h
    simp only [apply_redirection] at h
    by_cases hlen : i + 1 ≥ cmds.length
    · simp only [if_pos hlen] at h
      exact absurd h (by simp)
    · simp only [if_neg hlen] at h
      cases hp : pathParent (cmds.getD (i + 1) "") with
      | none =>
        rw [hp] at h
        exact absurd h (by simp)
      | some par =>
        rw [hp] at h
        by_cases hex : fs.pathExists par = true
        · simp only [hex, Bool.not_true, Bool.false_eq_true, if_false] at h
          by_cases hopen : fs.openOk b (cmds.getD (i + 1) "") = true
          · simp only [hopen, Bool.not_true, Bool.false_eq_true, if_false] at h
            obtain ⟨h1, -⟩ := by simpa [RedirOutcome.ok.injEq] using h
            refine Or.inr ⟨i, (findFirstOp_spec cmds i b hf).2, by omega, ?_⟩
            rw [← h1]
            rfl
          · rw [Bool.not_eq_true] at hopen
            simp only [hopen, Bool.not_false, if_true] at h
            exact absurd h (by simp)
        · rw [Bool.not_eq_true] at hex
          simp only [hex, Bool.not_false, if_true] at h
          exact absurd h (by simp)

/-! ## Claim theorems -/

/-- C1 (code bug, evaluated at the failing input): the write-form open of
`apply_redirection` uses `create(true).write(true)` without
`truncate(true)`, so writing `"hi\n"` over a file previously containing
`"hello world"` leaves `"hi\nlo world"` — the prior tail survives — and
not exactly the written text, contradicting the claimed truncate-create
semantics. -/
theorem c1_write_form_keeps_prior_tail :
    contentsAfterWriteForm (some "hello world") "hi\n" = "hi\nlo world" ∧
    contentsAfterWriteForm (some "hello world") "hi\n" ≠ "hi\n" :=
  ⟨rfl, by decide⟩

/-- C2 (code bug, evaluated at the failing input): `BUILTINS` holds only
`echo`, `type`, `pwd`, `exit` — not `cd` — so `type cd` (with no external
`cd` resolvable on the path) reports "cd: not found" instead of the
claimed "cd is a shell builtin", even though `main` dispatches `cd` as a
builtin. -/
theorem c2_type_cd_reports_not_found :
    BUILTINS = ["echo", "type", "pwd", "exit"] ∧
    BUILTINS.contains "cd" = false ∧
    type_cmd envDemo ["cd"] = [(Chan.out, "cd: not found\n")] :=
  ⟨rfl, rfl, rfl⟩

/-- C3 counterexample: a token sequence with two operators parses
successfully, yet the resulting command line still contains the second
operator token `">"`. -/
theorem c3_counterexample :
    parse_redirection fsDemo ["echo", ">", "/tmp/f", ">"] chansDemo =
      .ok ["echo", ">"] ⟨Sink.file "/tmp/f", Sink.console⟩ ∧
    isRedirOp ">" = true :=
  ⟨rfl, rfl⟩

/-- C3 (amended): for every token sequence containing AT MOST ONE
redirection operator token, after the Redirection Parser returns
successfully the resulting Command Line contains no redirection operator
tokens. -/
theorem c3_single_op_no_residual (fs : FileSys) (cmds cmds' : List String)
    (chans chans' : Channels)
    (hcount : cmds.countP (fun t => isRedirOp t) ≤ 1)
    (h : parse_redirection fs cmds chans = .ok cmds' chans') :
    ∀ t ∈ cmds', isRedirOp t = false := by
  rcases parse_ok_shape fs cmds cmds' chans chans' h with ⟨rfl, hnone⟩ | ⟨i, hop, hlen, rfl⟩
  · exact (findFirstOp_none_iff _).mp hnone
  · have hsplit : cmds =
        cmds.take i ++ cmds.getD i "" :: cmds.getD (i + 1) "" :: cmds.drop (i + 2) := by
      conv_lhs => rw [← List.take_append_drop i cmds]
      rw [drop_eq_getD_cons cmds i (by omega)]
      rw [drop_eq_getD_cons cmds (i + 1) (by omega)]
    have hcnt := congrArg (List.countP (fun t => isRedirOp t)) hsplit
    have hzero : (cmds.take i ++ cmds.drop (i + 2)).countP (fun t => isRedirOp t) = 0 := by
      rw [List.countP_append]
      by_cases h2 : isRedirOp (cmds.getD (i + 1) "") = true
      · rw [List.countP_append, List.countP_cons_of_pos _ _ (by simpa using hop),
          List.countP_cons_of_pos _ _ (by simpa using h2)] at hcnt
        omega
      · rw [Bool.not_eq_true] at h2
        rw [List.countP_append, List.countP_cons_of_pos _ _ (by simpa using hop),
          List.countP_cons_of_neg _ _ (by rw [h2]; exact Bool.false_ne_true)] at hcnt
        omega
    intro t ht
    have := List.countP_eq_zero.mp hzero t ht
    simpa using this

/-- Witness for the amended C3: a line with one operator comes back with
the operator and target removed and no operator remaining among the two
surviving tokens. -/
theorem c3_single_op_no_residual_witness :
    isRedirOp "echo" = false ∧ isRedirOp "a" = false :=
  ⟨c3_single_op_no_residual fsDemo ["echo", "a", ">", "/tmp/f"] ["echo", "a"]
      chansDemo ⟨Sink.file "/tmp/f", Sink.console⟩ (by decide) rfl "echo" (by decide),
   c3_single_op_no_residual fsDemo ["echo", "a", ">", "/tmp/f"] ["echo", "a"]
      chansDemo ⟨Sink.file "/tmp/f", Sink.console⟩ (by decide) rfl "a" (by decide)⟩

/-- C4: when the leftmost operator sits at position `i` (no operator
before it), its target is in range, the target's parent passes the
existence probe, and the open succeeds, parsing removes exactly tokens
`i` and `i + 1`, redirects the channel selected by the operator token,
and leaves every later token — including further operators and their
targets — in place. -/
theorem c4_only_first_op_applies (fs : FileSys) (cmds : List String)
    (chans : Channels) (i : Nat) (parentDir : String)
    (_hmulti : 2 ≤ cmds.countP (fun t => isRedirOp t))
    (hop : isRedirOp (cmds.getD i "") = true)
    (hfirst : ∀ k, k < i → isRedirOp (cmds.getD k "") = false)
    (hlen : i + 1 < cmds.length)
    (hpar : pathParent (cmds.getD (i + 1) "") = some parentDir)
    (hex : fs.pathExists parentDir = true)
    (hopen : fs.openOk (isRedirAppend (cmds.getD i "")) (cmds.getD (i + 1) "") = true) :
    parse_redirection fs cmds chans =
      .ok (cmds.take i ++ cmds.drop (i + 2))
        (if containsChar (cmds.getD i "") '2'
         then { chans with stderr_sink := Sink.file (cmds.getD (i + 1) "") }
         else { chans with stdout_sink := Sink.file (cmds.getD (i + 1) "") }) := by
  have hf := findFirstOp_of_first cmds i hop hfirst
  unfold parse_redirection
  simp only [hf]
  unfold apply_redirection
  rw [if_neg (by omega : ¬ i + 1 ≥ cmds.length)]
  simp only [hpar, hex, hopen, Bool.not_true, Bool.false_eq_true, if_false,
    removeOpAndTarget]

/-- Witness for C4: with two operators in the line, only the first (`>`
with target `/tmp/f`) is applied; `>>` and `/tmp/g` stay as arguments. -/
theorem c4_only_first_op_applies_witness :
    parse_redirection fsDemo ["echo", ">", "/tmp/f", ">>", "/tmp/g"] chansDemo =
      .ok ["echo", ">>", "/tmp/g"] ⟨Sink.file "/tmp/f", Sink.console⟩ := by
  have h := c4_only_first_op_applies fsDemo ["echo", ">", "/tmp/f", ">>", "/tmp/g"]
    chansDemo 1 "/tmp" (by decide) (by decide) (by decide) (by decide) (by decide)
    (by decide) (by decide)
  exact h.trans (by decide)

/-- C5 (code bug, evaluated at the failing input): a bare filename target
such as `out.txt` is REJECTED, not accepted: `Path::parent` of a
one-component relative path is the empty path, whose existence probe
(`stat("")`) always fails, so `echo hi > out.txt` errors with
"Redirection target doesn't exist" under every file-system state — even
though the target's parent directory (the current working directory)
exists. -/
theorem c5_bare_filename_rejected (fs : FileSys) (chans : Channels) :
    pathParent "out.txt" = some "" ∧
    fs.pathExists "" = false ∧
    parse_redirection fs ["echo", "hi", ">", "out.txt"] chans =
      .err "Redirection target doesn't exist" ["echo", "hi", ">", "out.txt"] chans :=
  ⟨rfl, rfl, rfl⟩

/-- C6 counterexample: `ls` resolves to `/bin/ls`, but the runner records
a spawn of the bare name `"ls"`, not the resolved path, and the output
written is that of spawning the name (`VIANAME`), not of the resolved
path (`RESOLVED`). -/
theorem c6_counterexample :
    find_external_cmd envDemo "ls" = some "/bin/ls" ∧
    try_external_cmd envDemo ["ls", "-a"] =
      .ran "ls" ["-a"] [(Chan.out, "VIANAME\n"), (Chan.err, "")] ∧
    envDemo.exec "/bin/ls" ["-a"] = ("RESOLVED\n", "") ∧
    ("ls" : String) ≠ "/bin/ls" ∧
    ("VIANAME\n" : String) ≠ "RESOLVED\n" :=
  ⟨rfl, rfl, rfl, by decide, by decide⟩

/-- C6 (amended): when the lookup resolves the command name, the runner
spawns the bare command NAME (the operating system re-resolves it at
spawn time) — not the resolved path — with the remaining tokens as
arguments, and writes the child's decoded stdout to the stdout buffer and
stderr to the stderr buffer. -/
theorem c6_runner_spawns_name (env : Env) (cmd : String) (rest : List String)
    (p : String) (hfind : find_external_cmd env cmd = some p)
    (hspawn : env.spawnOk cmd rest = true) :
    try_external_cmd env (cmd :: rest) =
      .ran cmd rest
        [(Chan.out, (env.exec cmd rest).1), (Chan.err, (env.exec cmd rest).2)] := by
  simp [try_external_cmd, hfind, hspawn]

/-- Witness for the amended C6. -/
theorem c6_runner_spawns_name_witness :
    try_external_cmd envDemo ["ls", "-a"] =
      .ran "ls" ["-a"]
        [(Chan.out, (envDemo.exec "ls" ["-a"]).1), (Chan.err, (envDemo.exec "ls" ["-a"]).2)] :=
  c6_runner_spawns_name envDemo "ls" ["-a"] "/bin/ls" rfl rfl

/-- C7 counterexample: the last token `">>"` is a redirection operator,
yet parsing succeeds (the earlier `>` is honored first) — no
MissingRedirectionTarget error, tokens removed, a sink replaced. -/
theorem c7_counterexample :
    isRedirOp ">>" = true ∧
    parse_redirection fsDemo ["echo", ">", "/tmp/f", ">>"] chansDemo =
      .ok ["echo", ">>"] ⟨Sink.file "/tmp/f", Sink.console⟩ :=
  ⟨rfl, rfl⟩

/-- C7 (amended): if the FIRST redirection operator of the Command Line
is its last token, parsing fails with the missing-target error, the
token list and channels are returned exactly as they were, and the
interpreter reports the error to the console and continues to the next
line. -/
theorem c7_first_op_last_token_errs (env : Env) (tokens : List String) (i : Nat)
    (hop : isRedirOp (tokens.getD i "") = true)
    (hfirst : ∀ k, k < i → isRedirOp (tokens.getD k "") = false)
    (hlast : i + 1 = tokens.length) :
    parse_redirection env.fs tokens ⟨Sink.console, Sink.console⟩ =
      .err "Redirection target missing" tokens ⟨Sink.console, Sink.console⟩ ∧
    processLine env tokens =
      .continues
        [(Sink.console, "Failed to parse redirection: Redirection target missing\n")]
        env.cwd := by
  have hf := findFirstOp_of_first tokens i hop hfirst
  have hp : parse_redirection env.fs tokens ⟨Sink.console, Sink.console⟩ =
      .err "Redirection target missing" tokens ⟨Sink.console, Sink.console⟩ := by
    unfold parse_redirection
    simp only [hf]
    unfold apply_redirection
    rw [if_pos (by omega : i + 1 ≥ tokens.length)]
  refine ⟨hp, ?_⟩
  unfold processLine
  simp only [hp]
  rfl

/-- Witness for the amended C7. -/
theorem c7_first_op_last_token_errs_witness :
    parse_redirection envDemo.fs ["echo", ">"] ⟨Sink.console, Sink.console⟩ =
      .err "Redirection target missing" ["echo", ">"] ⟨Sink.console, Sink.console⟩ ∧
    processLine envDemo ["echo", ">"] =
      .continues
        [(Sink.console, "Failed to parse redirection: Redirection target missing\n")]
        envDemo.cwd :=
  c7_first_op_last_token_errs envDemo ["echo", ">"] 1 (by decide) (by decide) rfl

/-- C8: a token sequence containing no redirection operator is returned
by the parser unchanged, with the channels untouched. -/
theorem c8_no_op_leaves_line_unchanged (fs : FileSys) (cmds : List String)
    (chans : Channels) (h : ∀ t ∈ cmds, isRedirOp t = false) :
    parse_redirection fs cmds chans = .ok cmds chans := by
  unfold parse_redirection
  simp only [(findFirstOp_none_iff cmds).mpr h]

/-- Witness for C8. -/
theorem c8_no_op_leaves_line_unchanged_witness :
    parse_redirection fsDemo ["echo", "a", "b"] chansDemo =
      .ok ["echo", "a", "b"] chansDemo :=
  c8_no_op_leaves_line_unchanged fsDemo ["echo", "a", "b"] chansDemo (by decide)

/-- C9: for a redirection target with no parent path component — the
root `/` or the empty string — `apply_redirection`'s
`parent().unwrap()` panics, aborting the whole interpreter instead of
returning a recoverable error; this holds under every environment. -/
theorem c9_no_parent_target_aborts (env : Env) (chans : Channels) :
    parse_redirection env.fs ["echo", ">", "/"] chans = .aborted ∧
    parse_redirection env.fs ["echo", ">", ""] chans = .aborted ∧
    processLine env ["echo", ">", "/"] = .aborted ∧
    processLine env ["echo", ">", ""] = .aborted :=
  ⟨rfl, rfl, rfl, rfl⟩

/-- C10: `exit` with two arguments matches neither `exit` dispatch arm,
falls through to the external runner, and — when no executable named
`exit` is on the search path — reports "exit: command not found" while
the interpreter continues (no process exit, no panic). -/
theorem c10_exit_two_args_falls_through (env : Env)
    (hfind : find_external_cmd env "exit" = none) :
    dispatch env ["exit", "1", "2"] =
      .wrote [(Chan.out, "exit: command not found\n")] env.cwd ∧
    processLine env ["exit", "1", "2"] =
      .continues [(Sink.console, "exit: command not found\n")] env.cwd := by
  have ht : try_external_cmd env ["exit", "1", "2"] = .notFound (cmd_not_found "exit") := by
    simp [try_external_cmd, hfind]
  have hd : dispatch env ["exit", "1", "2"] =
      .wrote [(Chan.out, "exit: command not found\n")] env.cwd := by
    have hu : dispatch env ["exit", "1", "2"] =
        (match try_external_cmd env ["exit", "1", "2"] with
         | .ran _ _ ws => .wrote ws env.cwd
         | .notFound ws => .wrote ws env.cwd
         | .aborted => .aborted) := rfl
    rw [hu, ht]
    rfl
  refine ⟨hd, ?_⟩
  have hparse : parse_redirection env.fs ["exit", "1", "2"] ⟨Sink.console, Sink.console⟩ =
      .ok ["exit", "1", "2"] ⟨Sink.console, Sink.console⟩ := rfl
  unfold processLine
  simp only [hparse, hd]
  rfl

/-- Witness for C10. -/
theorem c10_exit_two_args_falls_through_witness :
    dispatch envDemo ["exit", "1", "2"] =
      .wrote [(Chan.out, "exit: command not found\n")] envDemo.cwd ∧
    processLine envDemo ["exit", "1", "2"] =
      .continues [(Sink.console, "exit: command not found\n")] envDemo.cwd :=
  c10_exit_two_args_falls_through envDemo (by decide)

end ShellRs
